import Mathlib

/-!
Verification development for the mcp-mem0 server (src/main.py, src/utils.py):
a shallow embedding of the user-identity resolution layer, the header
extraction middleware, the four memory tools, and the lifespan manager,
together with proofs of the specified properties.

Conventions of the embedding:
- Python `str` becomes `String`; `str | None` becomes `Option String`.
- Python truthiness of a string (`if s:`) is `s != ""`; of an optional it is
  `some s` with `s != ""`.
- `str.strip()` becomes `pyStrip` (trimming ASCII whitespace from both ends).
- The ambient module globals read inside functions (the `current_user_id`
  context variable and `DEFAULT_USER_ID`) are passed as explicit parameters.
- Each mem0 storage capability method is passed as a function from the
  arguments the source passes it to the outcome of the call
  (`Except String α`: `.error e` models a raised exception with message `e`);
  a tool's `try`/`except` block becomes a `match` on that outcome.
- Logging calls (declared an external collaborator by the spec) are elided.

The file is organised as definitions first, then theorems.
-/

/-- Characters stripped by Python `str.strip()` for the ASCII range
(space, tab, newline, carriage return, vertical tab, form feed). -/
def isPyWhitespace (c : Char) : Bool :=
  c = ' ' || c = '\t' || c = '\n' || c = '\r' || c = '\x0b' || c = '\x0c'

/-- Python `s.strip()`: remove leading and trailing whitespace characters. -/
def pyStrip (s : String) : String :=
  String.mk (((s.data.dropWhile isPyWhitespace).reverse.dropWhile isPyWhitespace).reverse)

/-- Python truthiness of an optional string: `None` and `""` are falsy. -/
def pyTruthy : Option String → Bool
  | none => false
  | some s => s != ""

/-- Truthiness of the Python expression `v and v.strip()`:
true exactly when `v` is a non-`None`, non-empty string whose strip is
non-empty. -/
def pyTruthyStripped (v : Option String) : Bool :=
  pyTruthy v && pyTruthy (v.map pyStrip)

/-- Embedding of `_resolve_user_id` (src/main.py lines 40-54).
`user_id` is the explicit tool parameter, `ctx_user` the value read from the
`current_user_id` context variable, `DEFAULT_USER_ID` the module-level
default. Mirrors the source: `if user_id and user_id.strip(): return
user_id.strip()`, then the same for the context value, else the default
returned unchanged. -/
def _resolve_user_id (user_id : Option String) (ctx_user : Option String)
    (DEFAULT_USER_ID : String) : String :=
  if pyTruthyStripped user_id then pyStrip (user_id.getD "")
  else if pyTruthyStripped ctx_user then pyStrip (ctx_user.getD "")
  else DEFAULT_USER_ID

/-- The resolution contract as the spec words it (spec section 4.1): Step 1,
if `explicit` is present and non-empty after trimming, return trimmed
`explicit`; Step 2, else if `contextValue` is present and non-empty after
trimming, return trimmed `contextValue`; Step 3, else return
`processDefault` unchanged. -/
def resolveSpecModel (explicit : Option String) (contextValue : Option String)
    (processDefault : String) : String :=
  if explicit.isSome && (pyStrip (explicit.getD "") != "") then
    pyStrip (explicit.getD "")
  else if contextValue.isSome && (pyStrip (contextValue.getD "") != "") then
    pyStrip (contextValue.getD "")
  else processDefault

/-!
Header extraction middleware (src/main.py lines 194-222). Starlette header
lookup `request.headers.get(k)` is modelled over an association list of
(lowercased) header names; `a or b` on optional strings returns `a` when it
is truthy (a non-empty string) and `b` otherwise.
-/

/-- `request.headers.get k`: first entry with the given key, if any. -/
def headersGet (headers : List (String × String)) (k : String) : Option String :=
  (headers.find? (fun p => p.1 == k)).map (fun p => p.2)

/-- Python `a or b` specialised to optional strings: `a` when truthy
(present and non-empty), otherwise `b`. -/
def pyOrStr (a b : Option String) : Option String :=
  match a with
  | some s => if s == "" then b else some s
  | none => b

/-- Embedding of `UserIDMiddleware.dispatch` (src/main.py lines 207-217),
restricted to its effect on the `current_user_id` context variable:
`some v` means `current_user_id.set(v)` is executed with `v`, `none` means
the context variable is left unset. The source computes
`headers.get("x-user-id") or headers.get("x-user-email") or
headers.get("x-librechat-user-id")` and calls `set` only when the result is
truthy, with the raw (unstripped) header value. -/
def middleware_user_id (headers : List (String × String)) : Option String :=
  let user_id := pyOrStr (headersGet headers "x-user-id")
    (pyOrStr (headersGet headers "x-user-email")
      (headersGet headers "x-librechat-user-id"))
  match user_id with
  | some s => if s == "" then none else some s
  | none => none

/-!
Python values crossing the storage boundary (the mem0 client returns either
a dict-shaped envelope or a plain list) are modelled by `PyVal`. A raised
Python exception is modelled as `Except.error` carrying the exception text.
-/

/-- A Python value as far as the tool surface inspects one: strings,
integers, lists and string-keyed dicts. -/
inductive PyVal where
  | str : String → PyVal
  | int : Int → PyVal
  | list : List PyVal → PyVal
  | dict : List (String × PyVal) → PyVal

/-- Python `d[k]` / `k in d` on a string-keyed dict. -/
def pyDictGet (entries : List (String × PyVal)) (k : String) : Option PyVal :=
  (entries.find? (fun p => p.1 == k)).map (fun p => p.2)

/-- JSON string escaping for the characters the embedding cares about. -/
def jsonEscapeChar (c : Char) : String :=
  if c = '"' then "\\\""
  else if c = '\\' then "\\\\"
  else if c = '\n' then "\\n"
  else if c = '\t' then "\\t"
  else if c = '\r' then "\\r"
  else String.singleton c

/-- Quote a string as a JSON string literal. -/
def jsonQuote (s : String) : String :=
  "\"" ++ String.join (s.data.map jsonEscapeChar) ++ "\""

mutual

/-- Model of `json.dumps` on a `PyVal`. The `indent=2` pretty-printing
layout of the source's `json.dumps(..., indent=2)` is abstracted to a
single-line rendering: no claimed property depends on the whitespace layout
of the serialized output, only on the tools returning a string. -/
def jsonDumps : PyVal → String
  | PyVal.str s => jsonQuote s
  | PyVal.int n => toString n
  | PyVal.list xs => "[" ++ jsonItems xs ++ "]"
  | PyVal.dict es => "\x7b" ++ jsonEntries es ++ "\x7d"

/-- Comma-separated rendering of list elements. -/
def jsonItems : List PyVal → String
  | [] => ""
  | x :: xs => jsonDumps x ++ (if xs.isEmpty then "" else ", ") ++ jsonItems xs

/-- Comma-separated rendering of dict entries. -/
def jsonEntries : List (String × PyVal) → String
  | [] => ""
  | (k, v) :: es =>
    jsonQuote k ++ ": " ++ jsonDumps v ++ (if es.isEmpty then "" else ", ") ++ jsonEntries es

end

/-- The list comprehension `[memory["memory"] for memory in rs]` (src/main.py
line 127 and line 157): project the `"memory"` field of each element in
order; a non-dict element or a missing key raises (elements are evaluated
left to right, so the first bad element's exception wins). -/
def flattenResults : List PyVal → Except String (List PyVal)
  | [] => Except.ok []
  | PyVal.dict re :: rest =>
    match pyDictGet re "memory" with
    | some v => (flattenResults rest).map (fun vs => v :: vs)
    | none => Except.error "KeyError: \x27memory\x27"
  | _ :: _ => Except.error "TypeError: element is not subscriptable by string"

/-- Normalization in `get_all_memories` (src/main.py lines 126-129): if the
storage result is a dict containing a `"results"` key, project each
element's `"memory"` field into a flat list; otherwise pass the result
through unchanged. (A `"results"` value that is not a list would raise in
Python for non-iterable values; iterable non-list shapes are never produced
by the storage client and are modelled as the raised error.) -/
def get_all_flatten (memories : PyVal) : Except String PyVal :=
  match memories with
  | PyVal.dict entries =>
    match pyDictGet entries "results" with
    | some (PyVal.list rs) => (flattenResults rs).map PyVal.list
    | some _ => Except.error "TypeError: \x27results\x27 value is not iterable"
    | none => Except.ok (PyVal.dict entries)
  | m => Except.ok m

/-- Normalization in `search_memories` (src/main.py lines 156-159): the same
four lines of source text as in `get_all_memories`, transcribed separately
so that the sharing is a theorem rather than a modelling choice. -/
def search_flatten (memories : PyVal) : Except String PyVal :=
  match memories with
  | PyVal.dict entries =>
    match pyDictGet entries "results" with
    | some (PyVal.list rs) => (flattenResults rs).map PyVal.list
    | some _ => Except.error "TypeError: \x27results\x27 value is not iterable"
    | none => Except.ok (PyVal.dict entries)
  | m => Except.ok m

/-!
The four tools (src/main.py lines 84-191).
-/

/-- Embedding of `save_memory` (src/main.py lines 84-106). `add` models
`mem0_client.add(messages, user_id=resolved_uid)`. -/
def save_memory (add : PyVal → String → Except String Unit) (text : String)
    (user_id : String) (ctx_user : Option String) (DEFAULT_USER_ID : String) :
    String :=
  let resolved_uid := _resolve_user_id (some user_id) ctx_user DEFAULT_USER_ID
  let messages := PyVal.list [PyVal.dict [("role", PyVal.str "user"), ("content", PyVal.str text)]]
  match add messages resolved_uid with
  | Except.ok _ =>
    let preview := if text.length > 100 then text.take 100 ++ "..." else text
    "Successfully saved memory for user \x27" ++ resolved_uid ++ "\x27: " ++ preview
  | Except.error e => "Error saving memory: " ++ e

/-- Embedding of `get_all_memories` (src/main.py lines 109-135). `get_all`
models `mem0_client.get_all(user_id=resolved_uid)`. -/
def get_all_memories (get_all : String → Except String PyVal) (user_id : String)
    (ctx_user : Option String) (DEFAULT_USER_ID : String) : String :=
  let resolved_uid := _resolve_user_id (some user_id) ctx_user DEFAULT_USER_ID
  match get_all resolved_uid with
  | Except.ok memories =>
    match get_all_flatten memories with
    | Except.ok flattened => jsonDumps flattened
    | Except.error e => "Error retrieving memories: " ++ e
  | Except.error e => "Error retrieving memories: " ++ e

/-- Embedding of `search_memories` (src/main.py lines 138-168). `search`
models `mem0_client.search(query, user_id=resolved_uid, limit=limit)`. -/
def search_memories (search : String → String → Int → Except String PyVal)
    (query : String) (limit : Int) (user_id : String) (ctx_user : Option String)
    (DEFAULT_USER_ID : String) : String :=
  let resolved_uid := _resolve_user_id (some user_id) ctx_user DEFAULT_USER_ID
  match search query resolved_uid limit with
  | Except.ok memories =>
    match search_flatten memories with
    | Except.ok flattened => jsonDumps flattened
    | Except.error e => "Error searching memories: " ++ e
  | Except.error e => "Error searching memories: " ++ e

/-- Embedding of `delete_all_memories` (src/main.py lines 171-191).
`delete_all` models `mem0_client.delete_all(user_id=resolved_uid)`. Besides
the returned string, the embedding returns the list of identities the
storage deletion call was invoked with, so that "no call" and "exactly one
call scoped to the resolved identity" are stateable. -/
def delete_all_memories (delete_all : String → Except String Unit) (confirm : Bool)
    (user_id : String) (ctx_user : Option String) (DEFAULT_USER_ID : String) :
    String × List String :=
  if !confirm then
    ("Deletion not confirmed. Set confirm=true to delete all memories. This action cannot be undone.", [])
  else
    let resolved_uid := _resolve_user_id (some user_id) ctx_user DEFAULT_USER_ID
    match delete_all resolved_uid with
    | Except.ok _ =>
      ("Successfully deleted all memories for user \x27" ++ resolved_uid ++ "\x27.", [resolved_uid])
    | Except.error e => ("Error deleting memories: " ++ e, [resolved_uid])

/-- Does `needle` occur as a contiguous run inside the character list? -/
def charsHasSub (needle : List Char) : List Char → Bool
  | [] => needle.isEmpty
  | c :: cs => needle.isPrefixOf (c :: cs) || charsHasSub needle cs

/-- Substring test on strings. -/
def strContainsSub (hay needle : String) : Bool :=
  charsHasSub needle.data hay.data

/-!
Request-scoped context isolation (src/main.py lines 34-37 and 207-220).
Modelled from the spec: the isolation itself is provided by the Python
runtime (a `contextvars.ContextVar` read and written under asyncio), which
is not part of this repository. Its documented semantics — every
concurrently handled request runs as a task with its own context, and
`ContextVar.set`/`ContextVar.get` touch only the current task's context —
is embedded as a cooperative interleaving semantics: each task carries its
own copy of the `current_user_id` slot, a schedule is an arbitrary list of
task indices, and one step runs one operation of the scheduled task. Each
request simulation runs the program of the spec's concurrency property:
set its own identity value, yield to the scheduler, read the value back.
-/

/-- One context-variable operation of a request simulation. -/
inductive CtxOp where
  | setOp : String → CtxOp
  | yieldOp : CtxOp
  | getOp : CtxOp
deriving DecidableEq

/-- The per-task view: remaining program, this task's copy of the
`current_user_id` context variable, and the value its read observed. -/
structure TaskState where
  prog : List CtxOp
  ctxVar : Option String
  observed : Option String
deriving DecidableEq

/-- Run one operation of a task. `setOp` writes only this task's context
copy; `getOp` reads only this task's context copy; `yieldOp` merely marks a
scheduling point. -/
def stepTask (t : TaskState) : TaskState :=
  match t.prog with
  | [] => t
  | CtxOp.setOp v :: rest => { prog := rest, ctxVar := some v, observed := t.observed }
  | CtxOp.yieldOp :: rest => { prog := rest, ctxVar := t.ctxVar, observed := t.observed }
  | CtxOp.getOp :: rest => { prog := rest, ctxVar := t.ctxVar, observed := t.ctxVar }

/-- Run one operation of the task the scheduler picked (a no-op for an
out-of-range index). -/
def stepSystem (ts : List TaskState) (i : Nat) : List TaskState :=
  match ts.get? i with
  | some t => ts.set i (stepTask t)
  | none => ts

/-- Run a whole schedule: an arbitrary interleaving of task steps. -/
def runSched : List Nat → List TaskState → List TaskState
  | [], ts => ts
  | i :: rest, ts => runSched rest (stepSystem ts i)

/-- The request simulation of the spec's concurrency property: set this
request's own identity value into the request-scoped context, yield to the
scheduler, then read it back. -/
def requestProg (v : String) : List CtxOp :=
  [CtxOp.setOp v, CtxOp.yieldOp, CtxOp.getOp]

/-- A fresh request simulation: context unset, nothing observed yet. -/
def initTask (v : String) : TaskState :=
  ⟨requestProg v, none, none⟩

/-- `n` concurrent request simulations, request `i` carrying value `f i`. -/
def initTasks (f : Nat → String) (n : Nat) : List TaskState :=
  (List.range n).map (fun i => initTask (f i))

/-- The states task `i` (with value `v`) can ever be in: its program has
only its own four reachable configurations, and its context slot and
observation only ever hold its own value. -/
def taskReach (v : String) (t : TaskState) : Prop :=
  t = initTask v ∨
  t = ⟨[CtxOp.yieldOp, CtxOp.getOp], some v, none⟩ ∨
  t = ⟨[CtxOp.getOp], some v, none⟩ ∨
  t = ⟨[], some v, some v⟩

/-!
Server lifecycle (src/main.py lines 57-71). `mem0_lifespan` runs
`mem0_client = get_mem0_client()` once, yields `Mem0Context(mem0_client=
mem0_client)` to the serving phase, and its `finally:` block is `pass`.
The embedding records the lifecycle as the ordered trace of its effectful
steps, with an event vocabulary that includes a release event precisely so
that its absence is stateable.
-/

/-- The effectful steps a lifespan manager can take. -/
inductive LifespanEvent where
  | constructClient : LifespanEvent
  | yieldContext : LifespanEvent
  | releaseClient : LifespanEvent
deriving DecidableEq

/-- The trace of `mem0_lifespan`: construct the client, then yield the
serving context. The `finally:` block of the source is `pass` and
contributes no event. -/
def mem0_lifespan_trace : List LifespanEvent :=
  [LifespanEvent.constructClient, LifespanEvent.yieldContext]

/-- Embedding of the application context dataclass `Mem0Context`
(src/main.py lines 58-61), generic in the client handle type. -/
structure Mem0Context (Client : Type) where
  mem0_client : Client

/-- The context `mem0_lifespan` yields, holding the constructed client
(src/main.py line 69: `yield Mem0Context(mem0_client=mem0_client)`). -/
def mem0_lifespan_yielded (Client : Type) (client : Client) : Mem0Context Client :=
  ⟨client⟩

/-!
Theorems. Helper lemmas come first, then one theorem per claim (with a
witness or counterexample where required).
-/

/-- Stripping the empty string gives the empty string. -/
theorem pyStrip_empty : pyStrip "" = "" := rfl

/-- A string is Python-falsy with falsy strip exactly when its strip is empty
(or it is absent): the `s != ""` conjunct in `pyTruthyStripped` is redundant
because stripping the empty string yields the empty string. -/
theorem pyTruthyStripped_eq (v : Option String) :
    pyTruthyStripped v = (v.isSome && (pyStrip (v.getD "") != "")) := by
  cases v with
  | none => rfl
  | some s =>
    simp only [pyTruthyStripped, pyTruthy, Option.map_some', Option.isSome_some,
      Option.getD_some, Bool.true_and]
    cases hs : s == "" with
    | true =>
      have : s = "" := by simpa using hs
      subst this
      rfl
    | false =>
      simp [bne, hs]

/-- Projecting the `"memory"` field over a well-shaped results list yields
exactly the list of memory payloads, in order. -/
theorem flattenResults_memory_map (ms : List String) :
    flattenResults (ms.map (fun s => PyVal.dict [("memory", PyVal.str s)])) =
      Except.ok (ms.map PyVal.str) := by
  induction ms with
  | nil => rfl
  | cons s rest ih => simp [flattenResults, pyDictGet, ih, Except.map]

/-- A confirmed delete-all invocation calls the storage deletion capability
exactly once, with the resolved identity, whatever the call's outcome. -/
theorem delete_all_calls (delete_all : String → Except String Unit)
    (user_id : String) (ctx_user : Option String) (d : String) :
    (delete_all_memories delete_all true user_id ctx_user d).2 =
      [_resolve_user_id (some user_id) ctx_user d] := by
  cases h : delete_all (_resolve_user_id (some user_id) ctx_user d) <;>
    simp [delete_all_memories, h]

/-- Stepping a task preserves its reachable-state invariant. -/
theorem taskReach_step (v : String) (t : TaskState) (h : taskReach v t) :
    taskReach v (stepTask t) := by
  rcases h with h | h | h | h <;> subst h <;>
    simp [taskReach, stepTask, initTask, requestProg]

/-- The reachable-state invariant of every task is preserved by running any
schedule: a step of task `j` never touches the state of task `i ≠ j`. -/
theorem runSched_inv (f : Nat → String) (sched : List Nat) (ts : List TaskState)
    (hinv : ∀ i t, ts.get? i = some t → taskReach (f i) t) :
    ∀ i t, (runSched sched ts).get? i = some t → taskReach (f i) t := by
  induction sched generalizing ts with
  | nil => exact hinv
  | cons j rest ih =>
    intro i t h
    refine ih (stepSystem ts j) ?_ i t h
    intro i' t' h'
    unfold stepSystem at h'
    cases hj : ts.get? j with
    | none =>
      rw [hj] at h'
      exact hinv i' t' h'
    | some tj =>
      rw [hj] at h'
      by_cases hij : j = i'
      · subst hij
        rw [List.get?_set_eq, hj] at h'
        have h'' : some (stepTask tj) = some t' := h'
        cases h''
        exact taskReach_step (f j) tj (hinv j tj hj)
      · rw [List.get?_set_ne _ _ hij] at h'
        exact hinv i' t' h'

/-- Initially, every task satisfies its reachable-state invariant. -/
theorem initTasks_inv (f : Nat → String) (n : Nat) :
    ∀ i t, (initTasks f n).get? i = some t → taskReach (f i) t := by
  intro i t h
  unfold initTasks at h
  rcases Nat.lt_or_ge i n with hi | hi
  · rw [List.get?_map, List.get?_range hi] at h
    simp only [Option.map_some'] at h
    cases h
    exact Or.inl rfl
  · rw [List.get?_map, List.get?_len_le (by simpa using hi)] at h
    simp at h

/-- C1: identity resolution returns the trimmed explicit parameter when it is
present and non-empty after trimming; otherwise the trimmed context value
when that is present and non-empty after trimming; otherwise the process
default unchanged. As a total Lean function of the three inputs it is
deterministic and never fails; the theorem states that the source embedding
`_resolve_user_id` coincides with `resolveSpecModel`, the three-step
contract transcribed from the spec, on every input. -/
theorem resolve_user_id_matches_spec (explicit contextValue : Option String)
    (processDefault : String) :
    _resolve_user_id explicit contextValue processDefault =
      resolveSpecModel explicit contextValue processDefault := by
  unfold _resolve_user_id resolveSpecModel
  rw [pyTruthyStripped_eq, pyTruthyStripped_eq]

/-- C2: under any interleaved schedule of any number of concurrent request
simulations, each simulation that set its own identity value into the
request-scoped context and completed its read-back (possibly after
arbitrary scheduling yields of other requests in between) observed exactly
its own value, never another request's. -/
theorem request_context_isolation (f : Nat → String) (n : Nat)
    (sched : List Nat) (i : Nat) (t : TaskState)
    (hget : (runSched sched (initTasks f n)).get? i = some t)
    (hdone : t.prog = []) :
    t.observed = some (f i) := by
  have hreach := runSched_inv f sched (initTasks f n) (initTasks_inv f n) i t hget
  rcases hreach with h | h | h | h <;> subst h <;>
    simp_all [initTask, requestProg]

/-- C2 witness: two concurrent request simulations carrying distinct values
"A" and "B", run under a fully interleaved schedule; the second simulation
finishes and reads back its own value "B", not the first one's "A". -/
theorem request_context_isolation_witness :
    (runSched [0, 1, 0, 1, 0, 1]
        (initTasks (fun k => if k == 0 then "A" else "B") 2)).get? 1 =
      some ⟨[], some "B", some "B"⟩ ∧
    (⟨[], some "B", some "B"⟩ : TaskState).observed =
      some ((fun k => if k == 0 then "A" else "B") 1) ∧
    ("A" : String) ≠ "B" := by
  refine ⟨by decide, ?_, by decide⟩
  exact request_context_isolation (fun k => if k == 0 then "A" else "B") 2
    [0, 1, 0, 1, 0, 1] 1 ⟨[], some "B", some "B"⟩ (by decide) rfl

/-- C3: a delete-all invocation with confirm=false performs no storage
deletion call and returns a string containing "not confirmed"; an
invocation with confirm=true invokes the storage deletion call exactly
once, scoped to the resolved identity — whatever the outcome of the call. -/
theorem delete_all_confirmation_gate (delete_all : String → Except String Unit)
    (user_id : String) (ctx_user : Option String) (d : String) :
    (delete_all_memories delete_all false user_id ctx_user d).2 = [] ∧
    strContainsSub (delete_all_memories delete_all false user_id ctx_user d).1
      "not confirmed" = true ∧
    (delete_all_memories delete_all true user_id ctx_user d).2 =
      [_resolve_user_id (some user_id) ctx_user d] := by
  refine ⟨rfl, ?_, ?_⟩
  · show strContainsSub
      "Deletion not confirmed. Set confirm=true to delete all memories. This action cannot be undone."
      "not confirmed" = true
    decide
  · cases h : delete_all (_resolve_user_id (some user_id) ctx_user d) <;>
      simp [delete_all_memories, h]

/-- C4 counterexample: for a request carrying `x-user-id: " "` (a single
space) and `x-user-email: "bob"`, the middleware stores the raw value
`" "` into the context: the stored value is not trimmed (its trim is the
empty string, so the trimmed value would have been treated as absent), and
the all-whitespace value does not fall through to the next candidate key
`x-user-email` (which would have given `"bob"`). This refutes the claim
that the middleware stores the value trimmed and treats all-whitespace
values as absent with fall-through. -/
theorem middleware_whitespace_cex :
    middleware_user_id [("x-user-id", " "), ("x-user-email", "bob")] = some " " ∧
    pyStrip " " = "" ∧ (" " : String) ≠ "bob" := by
  refine ⟨rfl, rfl, by decide⟩

/-- C4 amended: the middleware stores the first header value (in the order
x-user-id, x-user-email, x-librechat-user-id) that is a non-empty string,
and it stores that value untrimmed, exactly as received — an all-whitespace
value is stored as-is and does not fall through. A missing or empty-string
header value falls through to the next candidate key. Whitespace-only
stored values are treated as absent only later, at resolution time, where
they fall back to the process default. -/
theorem middleware_stores_first_truthy_untrimmed
    (headers : List (String × String)) (v : String) (d : String) :
    (headersGet headers "x-user-id" = some v → v ≠ "" →
      middleware_user_id headers = some v) ∧
    ((headersGet headers "x-user-id" = none ∨
        headersGet headers "x-user-id" = some "") →
      headersGet headers "x-user-email" = some v → v ≠ "" →
      middleware_user_id headers = some v) ∧
    (pyStrip v = "" → _resolve_user_id (some "") (some v) d = d) := by
  refine ⟨?_, ?_, ?_⟩
  · intro h1 hv
    simp only [middleware_user_id, h1, pyOrStr]
    simp [hv]
  · intro h1 h2 hv
    rcases h1 with h1 | h1 <;>
      simp only [middleware_user_id, h1, h2, pyOrStr] <;> simp [hv]
  · intro hv
    simp [_resolve_user_id, pyTruthyStripped, pyTruthy, pyStrip_empty, hv]

/-- C4 amended, witness: with headers `x-user-id: " "`, `x-user-email: bob`
the first conjunct applies to the raw value `" "` (non-empty), storing it
untrimmed; and resolution of a whitespace-only context value falls back to
the default. -/
theorem middleware_stores_first_truthy_untrimmed_witness :
    middleware_user_id [("x-user-id", " "), ("x-user-email", "bob")] = some " " ∧
    _resolve_user_id (some "") (some " ") "default" = "default" := by
  constructor
  · exact (middleware_stores_first_truthy_untrimmed
      [("x-user-id", " "), ("x-user-email", "bob")] " " "default").1 rfl (by decide)
  · exact (middleware_stores_first_truthy_untrimmed
      [("x-user-id", " "), ("x-user-email", "bob")] " " "default").2.2 rfl

/-- C5: header extraction follows the fixed priority order x-user-id, then
x-user-email, then x-librechat-user-id, the first non-empty match winning;
in particular, for a request carrying both `x-user-id: alice` and
`x-user-email: a@x.com` and no explicit parameter (the tool-level default
`""`), the resolved identity is `"alice"`. -/
theorem header_priority_order (headers : List (String × String))
    (v : String) (d : String) :
    (headersGet headers "x-user-id" = some v → v ≠ "" →
      middleware_user_id headers = some v) ∧
    ((headersGet headers "x-user-id" = none ∨
        headersGet headers "x-user-id" = some "") →
      (headersGet headers "x-user-email" = none ∨
        headersGet headers "x-user-email" = some "") →
      headersGet headers "x-librechat-user-id" = some v → v ≠ "" →
      middleware_user_id headers = some v) ∧
    _resolve_user_id (some "")
      (middleware_user_id [("x-user-id", "alice"), ("x-user-email", "a@x.com")])
      d = "alice" := by
  refine ⟨?_, ?_, rfl⟩
  · intro h1 hv
    simp only [middleware_user_id, h1, pyOrStr]
    simp [hv]
  · intro h1 h2 h3 hv
    rcases h1 with h1 | h1 <;> rcases h2 with h2 | h2 <;>
      simp only [middleware_user_id, h1, h2, h3, pyOrStr] <;> simp [hv]

/-- C5 witness: at the concrete header map of the claim the first conjunct
applies with value `"alice"`, and resolution returns `"alice"`. -/
theorem header_priority_order_witness :
    middleware_user_id [("x-user-id", "alice"), ("x-user-email", "a@x.com")] =
      some "alice" ∧
    _resolve_user_id (some "")
      (middleware_user_id [("x-user-id", "alice"), ("x-user-email", "a@x.com")])
      "default" = "alice" := by
  constructor
  · exact (header_priority_order
      [("x-user-id", "alice"), ("x-user-email", "a@x.com")] "alice" "default").1
      rfl (by decide)
  · exact (header_priority_order
      [("x-user-id", "alice"), ("x-user-email", "a@x.com")] "alice" "default").2.2

/-- C6: every tool operation returns a string under both success and failure
(in the embedding all four tools are total functions into `String`, with no
exception channel in their result type); and an exception raised by the
storage capability is caught at the tool boundary and converted into a
descriptive error string carrying an "Error" prefix, never propagated. -/
theorem tool_errors_are_strings (e text query user_id : String) (limit : Int)
    (ctx_user : Option String) (d : String) :
    (∃ r, save_memory (fun _ _ => Except.error e) text user_id ctx_user d =
      "Error" ++ r) ∧
    (∃ r, get_all_memories (fun _ => Except.error e) user_id ctx_user d =
      "Error" ++ r) ∧
    (∃ r, search_memories (fun _ _ _ => Except.error e) query limit user_id ctx_user d =
      "Error" ++ r) ∧
    (∃ r, (delete_all_memories (fun _ => Except.error e) true user_id ctx_user d).1 =
      "Error" ++ r) :=
  ⟨⟨" saving memory: " ++ e, rfl⟩,
   ⟨" retrieving memories: " ++ e, rfl⟩,
   ⟨" searching memories: " ++ e, rfl⟩,
   ⟨" deleting memories: " ++ e, rfl⟩⟩

/-- C7: list-all and search apply the same normalization to the storage
result before serializing — the two transcriptions are equal as functions;
a dict-shaped result with a `"results"` key is unwrapped by projecting each
element's `"memory"` field into a flat ordered list; an already-flat list
(and any other non-dict-with-results value, such as a dict without the key)
is passed through unchanged. -/
theorem normalization_shared_unwrap (m : PyVal) (ms : List String)
    (xs : List PyVal) (entries : List (String × PyVal))
    (hnone : pyDictGet entries "results" = none) :
    get_all_flatten m = search_flatten m ∧
    get_all_flatten (PyVal.dict [("results",
        PyVal.list (ms.map (fun s => PyVal.dict [("memory", PyVal.str s)])))]) =
      Except.ok (PyVal.list (ms.map PyVal.str)) ∧
    get_all_flatten (PyVal.list xs) = Except.ok (PyVal.list xs) ∧
    get_all_flatten (PyVal.dict entries) = Except.ok (PyVal.dict entries) := by
  refine ⟨rfl, ?_, rfl, ?_⟩
  · simp [get_all_flatten, pyDictGet, flattenResults_memory_map, Except.map]
  · simp [get_all_flatten, hnone]

/-- C7 witness: the spec's own example shape `{"results": [{"memory":
"..."}]}` is unwrapped to `["..."]`, a flat list passes through, and a dict
without a `"results"` key passes through. -/
theorem normalization_shared_unwrap_witness :
    get_all_flatten (PyVal.dict [("results",
        PyVal.list [PyVal.dict [("memory", PyVal.str "water the plants")]])]) =
      Except.ok (PyVal.list [PyVal.str "water the plants"]) ∧
    get_all_flatten (PyVal.list [PyVal.str "a", PyVal.str "b"]) =
      Except.ok (PyVal.list [PyVal.str "a", PyVal.str "b"]) ∧
    get_all_flatten (PyVal.dict [("other", PyVal.int 1)]) =
      Except.ok (PyVal.dict [("other", PyVal.int 1)]) := by
  refine ⟨?_, ?_, ?_⟩
  · exact (normalization_shared_unwrap (PyVal.int 0) ["water the plants"] []
      [("other", PyVal.int 1)] rfl).2.1
  · exact (normalization_shared_unwrap (PyVal.int 0) []
      [PyVal.str "a", PyVal.str "b"] [("other", PyVal.int 1)] rfl).2.2.1
  · exact (normalization_shared_unwrap (PyVal.int 0) [] []
      [("other", PyVal.int 1)] rfl).2.2.2

/-- C8: the save operation's success message echoes a preview equal to the
full text when the text is at most 100 characters long, and equal to the
first 100 characters followed by the ellipsis marker `"..."` when the text
is longer than 100 characters. -/
theorem save_preview_truncation (add : PyVal → String → Except String Unit)
    (hadd : ∀ m u, add m u = Except.ok ()) (text user_id : String)
    (ctx_user : Option String) (d : String) :
    (text.length ≤ 100 →
      save_memory add text user_id ctx_user d =
        "Successfully saved memory for user \x27" ++
          _resolve_user_id (some user_id) ctx_user d ++ "\x27: " ++ text) ∧
    (text.length > 100 →
      save_memory add text user_id ctx_user d =
        "Successfully saved memory for user \x27" ++
          _resolve_user_id (some user_id) ctx_user d ++ "\x27: " ++
          (text.take 100 ++ "...")) := by
  constructor
  · intro h
    have h100 : ¬ (text.length > 100) := by omega
    simp [save_memory, hadd, h100]
  · intro h
    simp [save_memory, hadd, h]

set_option maxRecDepth 10000 in
/-- C8 witness: a 50-character input is echoed in full with no ellipsis; a
150-character input is truncated to its first 100 characters followed by
the ellipsis marker. -/
theorem save_preview_truncation_witness :
    save_memory (fun _ _ => Except.ok ()) (String.mk (List.replicate 50 'b'))
        "u" none "d" =
      "Successfully saved memory for user \x27" ++
        _resolve_user_id (some "u") none "d" ++ "\x27: " ++
        String.mk (List.replicate 50 'b') ∧
    save_memory (fun _ _ => Except.ok ()) (String.mk (List.replicate 150 'a'))
        "u" none "d" =
      "Successfully saved memory for user \x27" ++
        _resolve_user_id (some "u") none "d" ++ "\x27: " ++
        ((String.mk (List.replicate 150 'a')).take 100 ++ "...") := by
  constructor
  · exact (save_preview_truncation (fun _ _ => Except.ok ()) (fun _ _ => rfl)
      (String.mk (List.replicate 50 'b')) "u" none "d").1 (by decide)
  · exact (save_preview_truncation (fun _ _ => Except.ok ()) (fun _ _ => rfl)
      (String.mk (List.replicate 150 'a')) "u" none "d").2 (by decide)

/-- C9 counterexample: the lifecycle trace contains no release event — the
shutdown path of `mem0_lifespan` is a `pass` no-op, so the claim that the
handle is released on shutdown fails. -/
theorem lifespan_no_release_cex :
    LifespanEvent.releaseClient ∉ mem0_lifespan_trace := by
  decide

/-- C9 amended: the lifecycle constructs the storage-capability handle
exactly once, as its first step, before yielding the serving context (and
hence before any request is served), and the yielded context exposes
exactly the constructed handle to tool invocations; the shutdown cleanup
block is a no-op — the handle is never explicitly released. -/
theorem lifespan_construct_once (Client : Type) (client : Client) :
    mem0_lifespan_trace.count LifespanEvent.constructClient = 1 ∧
    mem0_lifespan_trace.head? = some LifespanEvent.constructClient ∧
    (mem0_lifespan_yielded Client client).mem0_client = client ∧
    LifespanEvent.releaseClient ∉ mem0_lifespan_trace := by
  refine ⟨by decide, rfl, rfl, by decide⟩

/-- C10: when both the explicit parameter and the context value are absent
or all-whitespace, resolution returns the process default with no trimming
and no non-emptiness check, and the tool operations are scoped to exactly
that default, even when it is empty or all-whitespace: nothing in the
embedded resolution path validates the default. -/
theorem default_identity_passthrough (explicit ctx_user : Option String)
    (d : String) (delete_all : String → Except String Unit)
    (he : pyTruthyStripped explicit = false)
    (hc : pyTruthyStripped ctx_user = false) :
    _resolve_user_id explicit ctx_user d = d ∧
    (delete_all_memories delete_all true "" ctx_user d).2 = [d] := by
  have hempty : pyTruthyStripped (some "") = false := rfl
  have hr : _resolve_user_id (some "") ctx_user d = d := by
    simp [_resolve_user_id, hempty, hc]
  constructor
  · simp [_resolve_user_id, he, hc]
  · rw [delete_all_calls delete_all "" ctx_user d, hr]

/-- C10 witness: with a whitespace-only explicit parameter, an empty-string
context value and the empty string as configured default, resolution
returns the empty string and the confirmed delete-all call is scoped to the
empty identifier. -/
theorem default_identity_passthrough_witness :
    _resolve_user_id (some " ") (some "") "" = "" ∧
    (delete_all_memories (fun _ => Except.ok ()) true "" (some "") "").2 = [""] :=
  default_identity_passthrough (some " ") (some "") ""
    (fun _ => Except.ok ()) rfl rfl
